import Mathlib

/-!
Verification of the Davis Vantage Pro driver
(`weather/stations/davis.py`): a shallow embedding of the CRC engine,
the record codecs, the handshake protocol, the archive-download state
machine and the session watermark logic, together with theorems
settling the specified properties.
-/

namespace Davis

/-- CRC lookup table for polynomial 0x1021, transcribed from
`VProCRC.CRC_TABLE`. -/
def CRC_TABLE : List Nat := [
  0x0, 0x1021, 0x2042, 0x3063, 0x4084, 0x50a5, 0x60c6, 0x70e7,
  0x8108, 0x9129, 0xa14a, 0xb16b, 0xc18c, 0xd1ad, 0xe1ce, 0xf1ef,
  0x1231, 0x210, 0x3273, 0x2252, 0x52b5, 0x4294, 0x72f7, 0x62d6,
  0x9339, 0x8318, 0xb37b, 0xa35a, 0xd3bd, 0xc39c, 0xf3ff, 0xe3de,
  0x2462, 0x3443, 0x420, 0x1401, 0x64e6, 0x74c7, 0x44a4, 0x5485,
  0xa56a, 0xb54b, 0x8528, 0x9509, 0xe5ee, 0xf5cf, 0xc5ac, 0xd58d,
  0x3653, 0x2672, 0x1611, 0x630, 0x76d7, 0x66f6, 0x5695, 0x46b4,
  0xb75b, 0xa77a, 0x9719, 0x8738, 0xf7df, 0xe7fe, 0xd79d, 0xc7bc,
  0x48c4, 0x58e5, 0x6886, 0x78a7, 0x840, 0x1861, 0x2802, 0x3823,
  0xc9cc, 0xd9ed, 0xe98e, 0xf9af, 0x8948, 0x9969, 0xa90a, 0xb92b,
  0x5af5, 0x4ad4, 0x7ab7, 0x6a96, 0x1a71, 0xa50, 0x3a33, 0x2a12,
  0xdbfd, 0xcbdc, 0xfbbf, 0xeb9e, 0x9b79, 0x8b58, 0xbb3b, 0xab1a,
  0x6ca6, 0x7c87, 0x4ce4, 0x5cc5, 0x2c22, 0x3c03, 0xc60, 0x1c41,
  0xedae, 0xfd8f, 0xcdec, 0xddcd, 0xad2a, 0xbd0b, 0x8d68, 0x9d49,
  0x7e97, 0x6eb6, 0x5ed5, 0x4ef4, 0x3e13, 0x2e32, 0x1e51, 0xe70,
  0xff9f, 0xefbe, 0xdfdd, 0xcffc, 0xbf1b, 0xaf3a, 0x9f59, 0x8f78,
  0x9188, 0x81a9, 0xb1ca, 0xa1eb, 0xd10c, 0xc12d, 0xf14e, 0xe16f,
  0x1080, 0xa1, 0x30c2, 0x20e3, 0x5004, 0x4025, 0x7046, 0x6067,
  0x83b9, 0x9398, 0xa3fb, 0xb3da, 0xc33d, 0xd31c, 0xe37f, 0xf35e,
  0x2b1, 0x1290, 0x22f3, 0x32d2, 0x4235, 0x5214, 0x6277, 0x7256,
  0xb5ea, 0xa5cb, 0x95a8, 0x8589, 0xf56e, 0xe54f, 0xd52c, 0xc50d,
  0x34e2, 0x24c3, 0x14a0, 0x481, 0x7466, 0x6447, 0x5424, 0x4405,
  0xa7db, 0xb7fa, 0x8799, 0x97b8, 0xe75f, 0xf77e, 0xc71d, 0xd73c,
  0x26d3, 0x36f2, 0x691, 0x16b0, 0x6657, 0x7676, 0x4615, 0x5634,
  0xd94c, 0xc96d, 0xf90e, 0xe92f, 0x99c8, 0x89e9, 0xb98a, 0xa9ab,
  0x5844, 0x4865, 0x7806, 0x6827, 0x18c0, 0x8e1, 0x3882, 0x28a3,
  0xcb7d, 0xdb5c, 0xeb3f, 0xfb1e, 0x8bf9, 0x9bd8, 0xabbb, 0xbb9a,
  0x4a75, 0x5a54, 0x6a37, 0x7a16, 0xaf1, 0x1ad0, 0x2ab3, 0x3a92,
  0xfd2e, 0xed0f, 0xdd6c, 0xcd4d, 0xbdaa, 0xad8b, 0x9de8, 0x8dc9,
  0x7c26, 0x6c07, 0x5c64, 0x4c45, 0x3ca2, 0x2c83, 0x1ce0, 0xcc1,
  0xef1f, 0xff3e, 0xcf5d, 0xdf7c, 0xaf9b, 0xbfba, 0x8fd9, 0x9ff8,
  0x6e17, 0x7e36, 0x4e55, 0x5e74, 0x2e93, 0x3eb2, 0xed1, 0x1ef0]

/-- One step of the table-driven CRC accumulator, as in the loop body of
`VProCRC.get`: `crc = CRC_TABLE[(crc >> 8) ^ byte] ^ ((crc & 0xFF) << 8)`. -/
def crcStep (crc byte : Nat) : Nat :=
  (CRC_TABLE.getD ((crc >>> 8) ^^^ byte) 0) ^^^ ((crc &&& 0xFF) <<< 8)

/-- CRC of a byte sequence, as computed by `VProCRC.get`: fold `crcStep`
over the data starting from 0. -/
def crcGet (data : List Nat) : Nat :=
  data.foldl crcStep 0

/-- CRC check of raw data, as in `VProCRC.verify`: an empty input is
invalid; otherwise the data is valid exactly when its CRC is zero. -/
def verify (data : List Nat) : Bool :=
  if data.length = 0 then false
  else crcGet data == 0

/-- Claim C9: for every byte sequence `b`, `verify b` is true exactly when
`b` is non-empty and `crcGet b = 0`; in particular the empty sequence does
not verify. -/
theorem verify_iff_nonempty_and_crc_zero :
    (∀ data : List Nat, verify data = true ↔ 0 < data.length ∧ crcGet data = 0)
      ∧ verify [] = false := by
  constructor
  · intro data
    cases data with
    | nil => simp [verify]
    | cons b bs =>
      simp [verify, Nat.succ_ne_zero, beq_iff_eq]
  · rfl

/-- Calendar date-time value, standing in for the Python `datetime`
objects handed to the watermark encoders. -/
structure DateTime where
  year : Nat
  month : Nat
  day : Nat
  hour : Nat
  minute : Nat

/-- Packed archive date stamp, as in `VantagePro.calcDateStamp`:
`day + month*32 + (year-2000)*512`. -/
def calcDateStamp (d : DateTime) : Nat :=
  d.day + d.month * 32 + (d.year - 2000) * 512

/-- Packed archive time stamp, as in `VantagePro.calcTimeStamp`:
`100*hour + minute`. -/
def calcTimeStamp (d : DateTime) : Nat :=
  100 * d.hour + d.minute

/-- Archive date/time decoder, as in `_ArchiveStruct._unpack_date_time`:
day from the low 5 bits, month from the next 4, year offset from the top
7 bits; the time stamp splits as `divmod(time, 100)`.  Returns
`(year, month, day, hour, minute)` in the source's order. -/
def unpack_date_time (date time : Nat) : Nat × Nat × Nat × Nat × Nat :=
  (((date >>> 9) &&& 0x7f) + 2000,
   (date >>> 5) &&& 0x0f,
   date &&& 0x1f,
   time / 100,
   time % 100)

/-- Claim C10: the watermark encoders and the archive date/time decoder
are mutually inverse on the representable range (years 2000..2127, valid
month/day/hour/minute). -/
theorem unpack_date_time_calcStamp (d : DateTime)
    (hy : 2000 ≤ d.year) (hy2 : d.year ≤ 2127)
    (hm : 1 ≤ d.month) (hm2 : d.month ≤ 12)
    (hd : 1 ≤ d.day) (hd2 : d.day ≤ 31)
    (hh : d.hour ≤ 23) (hmin : d.minute ≤ 59) :
    unpack_date_time (calcDateStamp d) (calcTimeStamp d)
      = (d.year, d.month, d.day, d.hour, d.minute) := by
  unfold unpack_date_time calcDateStamp calcTimeStamp
  have e31 : (31 : Nat) = 2 ^ 5 - 1 := by norm_num
  have e15 : (15 : Nat) = 2 ^ 4 - 1 := by norm_num
  have e127 : (127 : Nat) = 2 ^ 7 - 1 := by norm_num
  rw [show (0x1f : Nat) = 31 from rfl, show (0x0f : Nat) = 15 from rfl,
    show (0x7f : Nat) = 127 from rfl, e31, e15, e127,
    Nat.shiftRight_eq_div_pow, Nat.shiftRight_eq_div_pow,
    Nat.and_pow_two_sub_one_eq_mod, Nat.and_pow_two_sub_one_eq_mod,
    Nat.and_pow_two_sub_one_eq_mod]
  norm_num
  omega

/-- Witness for claim C10 at the concrete date 2023-06-15 12:34. -/
theorem unpack_date_time_calcStamp_witness :
    unpack_date_time (calcDateStamp ⟨2023, 6, 15, 12, 34⟩)
        (calcTimeStamp ⟨2023, 6, 15, 12, 34⟩)
      = (2023, 6, 15, 12, 34) :=
  unpack_date_time_calcStamp ⟨2023, 6, 15, 12, 34⟩
    (by decide) (by decide) (by decide) (by decide) (by decide) (by decide)
    (by decide) (by decide)

/-- Raw integer fields of a LOOP snapshot frame that `LoopStruct._post_unpack`
transforms (each a 16-bit word as unpacked from the byte layout). -/
structure LoopRaw where
  pressure : Nat
  tempIn : Nat
  tempOut : Nat
  rainRate : Nat
  rainStorm : Nat
  stormStartDate : Nat
  rainDay : Nat
  rainMonth : Nat
  rainYear : Nat
  etDay : Nat
  etMonth : Nat
  etYear : Nat
  batteryVolts : Nat
  sunRise : Nat
  sunSet : Nat

/-- Decoded LOOP snapshot fields after the post-unpack transforms. -/
structure LoopDec where
  pressure : ℚ
  tempIn : ℚ
  tempOut : ℚ
  rainRate : ℚ
  rainStorm : ℚ
  stormStartDate : String
  rainDay : ℚ
  rainMonth : ℚ
  rainYear : ℚ
  etDay : ℚ
  etMonth : ℚ
  etYear : ℚ
  batteryVolts : ℚ
  sunRise : String
  sunSet : String

/-- Two-digit zero-padded decimal rendering, as `"%02d"` produces for the
non-negative values that occur here. -/
def pad2 (n : Nat) : String :=
  if n < 10 then "0" ++ toString n else toString n

/-- Packed time decoder, as in `LoopStruct._unpack_time`:
`"%02d:%02d" % divmod(val, 100)`. -/
def unpack_time (val : Nat) : String :=
  pad2 (val / 100) ++ ":" ++ pad2 (val % 100)

/-- Bit fields of the packed storm-start date, in the order the source
computes them in `LoopStruct._unpack_storm_date`: year from the low 7
bits (+2000), day from the next 5 bits, month from the top 4 bits.
Returns `(year, day, month)`. -/
def unpack_storm_date_fields (date : Nat) : Nat × Nat × Nat :=
  ((date &&& 0x7f) + 2000, (date >>> 7) &&& 0x1f, (date >>> 12) &&& 0x0f)

/-- Packed storm-start date decoder, as in `LoopStruct._unpack_storm_date`:
formats `"%s-%s-%s" % (year, month, day)`. -/
def unpack_storm_date (date : Nat) : String :=
  let f := unpack_storm_date_fields date
  toString f.1 ++ "-" ++ toString f.2.2 ++ "-" ++ toString f.2.1

/-- Post-unpack transform of the LOOP snapshot, as in
`LoopStruct._post_unpack` (scaling is modelled over the exact
rationals). -/
def loopPostUnpack (r : LoopRaw) : LoopDec where
  pressure := (r.pressure : ℚ) / 1000
  tempIn := (r.tempIn : ℚ) / 10
  tempOut := (r.tempOut : ℚ) / 10
  rainRate := (r.rainRate : ℚ) / 100
  rainStorm := (r.rainStorm : ℚ) / 100
  stormStartDate := unpack_storm_date r.stormStartDate
  rainDay := (r.rainDay : ℚ) / 100
  rainMonth := (r.rainMonth : ℚ) / 100
  rainYear := (r.rainYear : ℚ) / 100
  etDay := (r.etDay : ℚ) / 1000
  etMonth := (r.etMonth : ℚ) / 100
  etYear := (r.etYear : ℚ) / 100
  batteryVolts := (r.batteryVolts : ℚ) * 300 / 512 / 100
  sunRise := unpack_time r.sunRise
  sunSet := unpack_time r.sunSet

/-- Claim C7: the LOOP decode applies exactly the specified transforms —
the stated divisors for pressure, temperatures, rain, evapotranspiration
and battery volts, `"HH:MM"` rendering of sunrise/sunset (601 becomes
"06:01"), and the 7-bit-year / 5-bit-day / 4-bit-month storm-date
unpacking (low bits year, then day, then month), whose bit order differs
from the archive date packing. -/
theorem loopPostUnpack_spec (r : LoopRaw) :
    (loopPostUnpack r).pressure = (r.pressure : ℚ) / 1000
    ∧ (loopPostUnpack r).tempIn = (r.tempIn : ℚ) / 10
    ∧ (loopPostUnpack r).tempOut = (r.tempOut : ℚ) / 10
    ∧ (loopPostUnpack r).rainRate = (r.rainRate : ℚ) / 100
    ∧ (loopPostUnpack r).rainStorm = (r.rainStorm : ℚ) / 100
    ∧ (loopPostUnpack r).rainDay = (r.rainDay : ℚ) / 100
    ∧ (loopPostUnpack r).rainMonth = (r.rainMonth : ℚ) / 100
    ∧ (loopPostUnpack r).rainYear = (r.rainYear : ℚ) / 100
    ∧ (loopPostUnpack r).etDay = (r.etDay : ℚ) / 1000
    ∧ (loopPostUnpack r).etMonth = (r.etMonth : ℚ) / 100
    ∧ (loopPostUnpack r).etYear = (r.etYear : ℚ) / 100
    ∧ (loopPostUnpack r).batteryVolts = (r.batteryVolts : ℚ) * 300 / 512 / 100
    ∧ (loopPostUnpack r).sunRise = unpack_time r.sunRise
    ∧ (loopPostUnpack r).sunSet = unpack_time r.sunSet
    ∧ unpack_time 601 = "06:01"
    ∧ (loopPostUnpack r).stormStartDate =
        toString ((r.stormStartDate &&& 0x7f) + 2000) ++ "-"
          ++ toString ((r.stormStartDate >>> 12) &&& 0x0f) ++ "-"
          ++ toString ((r.stormStartDate >>> 7) &&& 0x1f)
    ∧ (let s := unpack_storm_date_fields 0x1234
       let a := unpack_date_time 0x1234 0
       (s.1, s.2.2, s.2.1) ≠ (a.1, a.2.1, a.2.2.1)) := by
  refine ⟨rfl, rfl, rfl, rfl, rfl, rfl, rfl, rfl, rfl, rfl, rfl, rfl, rfl,
    rfl, by decide, rfl, by decide⟩

/-- Counterexample to the claim's "YYYY-MM-DD" rendering: the packed
storm date 26519 encodes 2023-06-15, but the decode renders it with
`"%s"` formatting and no zero padding, so the result is "2023-6-15"
rather than the zero-padded "2023-06-15". -/
theorem loopStormDate_not_zero_padded :
    (loopPostUnpack ⟨0, 0, 0, 0, 0, 26519, 0, 0, 0, 0, 0, 0, 0, 0, 0⟩).stormStartDate
        = "2023-6-15"
    ∧ (loopPostUnpack ⟨0, 0, 0, 0, 0, 26519, 0, 0, 0, 0, 0, 0, 0, 0, 0⟩).stormStartDate
        ≠ "2023-06-15" := by
  exact ⟨by decide, by decide⟩

/-- Concrete scaling checks from the spec: pressure word 30000 decodes to
30, temperature word 725 to 72.5, rain-rate word 150 to 1.5. -/
theorem loopPostUnpack_examples :
    (loopPostUnpack ⟨30000, 0, 725, 150, 0, 0, 0, 0, 0, 0, 0, 0, 0, 0, 0⟩).pressure = 30
    ∧ (loopPostUnpack ⟨30000, 0, 725, 150, 0, 0, 0, 0, 0, 0, 0, 0, 0, 0, 0⟩).tempOut
        = (725 : ℚ) / 10
    ∧ (loopPostUnpack ⟨30000, 0, 725, 150, 0, 0, 0, 0, 0, 0, 0, 0, 0, 0, 0⟩).rainRate
        = (15 : ℚ) / 10 := by
  refine ⟨by norm_num [loopPostUnpack], rfl, by norm_num [loopPostUnpack]⟩

/-- Modelled from the spec: the generic fixed-layout unpacker
(`weather/stations/_struct.py`) is not among the sources; per the `'='`
standard-size layouts declared in `davis.py` and the spec's §3/§6 frame
descriptions, a 16-bit field is read least-significant byte first. -/
def read16LE (blob : List Nat) (o : Nat) : Nat :=
  blob.getD o 0 + 256 * blob.getD (o + 1) 0

/-- Size in bytes of one archive record (`ArchiveAStruct.size`, equal to
`ArchiveBStruct.size`): both layouts measure 52 bytes. -/
def archiveRecordSize : Nat := 52

/-- Raw `(DateStamp, TimeStamp)` pair of the record slot at a byte offset
inside a page blob: both stamps are 16-bit fields at the start of either
archive layout. -/
def slotStamps (blob : List Nat) (offset : Nat) : Nat × Nat :=
  (read16LE blob offset, read16LE blob (offset + 2))

/-- Record slots visited by the page walk of `_dmpaft_cmd` step 6: from
the start offset, in strides of one record size, while the offset stays
below `archiveRecordSize * 5`.  The fuel bounds the iteration count; the
walk makes at most 5 steps, so any fuel ≥ 5 is exact. -/
def walkSlots (blob : List Nat) : Nat → Nat → List (Nat × Nat)
  | 0, _ => []
  | fuel + 1, offset =>
    if offset < archiveRecordSize * 5 then
      slotStamps blob offset :: walkSlots blob fuel (offset + archiveRecordSize)
    else []

/-- Records collected by the page walk of `_dmpaft_cmd` step 6/7: a slot
is appended exactly when `DateStamp != 0xffff and TimeStamp != 0xffff`. -/
def walkRecords (blob : List Nat) : Nat → Nat → List (Nat × Nat)
  | 0, _ => []
  | fuel + 1, offset =>
    if offset < archiveRecordSize * 5 then
      let a := slotStamps blob offset
      let rest := walkRecords blob fuel (offset + archiveRecordSize)
      if a.1 ≠ 0xffff ∧ a.2 ≠ 0xffff then a :: rest else rest
    else []

/-- Counterexample to claim C1: a page blob whose first slot has raw
DateStamp `0xFFFF` but TimeStamp `5` (so not both stamps are the
sentinel).  The claim predicts the slot is collected; the code discards
it, because the filter drops a record as soon as either stamp is
`0xFFFF`. -/
theorem walkRecords_not_iff_both_sentinel :
    walkRecords (255 :: 255 :: 5 :: 0 :: List.replicate 256 255) 5 0
      ≠ (walkSlots (255 :: 255 :: 5 :: 0 :: List.replicate 256 255) 5 0).filter
          (fun a => !(a.1 == 0xffff && a.2 == 0xffff)) := by
  decide

/-- Claim C1 as amended: the page walk collects, in blob order, exactly
the slots with raw DateStamp distinct from `0xFFFF` and raw TimeStamp
distinct from `0xFFFF`; a slot is discarded as soon as either stamp is
the sentinel. -/
theorem walkRecords_eq_filter (blob : List Nat) (fuel offset : Nat) :
    walkRecords blob fuel offset
      = (walkSlots blob fuel offset).filter
          (fun a => a.1 != 0xffff && a.2 != 0xffff) := by
  induction fuel generalizing offset with
  | zero => rfl
  | succ n ih =>
    by_cases h : offset < archiveRecordSize * 5
    · rw [walkRecords, walkSlots, if_pos h, if_pos h, List.filter_cons, ih]
      by_cases hk : (slotStamps blob offset).1 ≠ 0xffff
          ∧ (slotStamps blob offset).2 ≠ 0xffff
      · rw [if_pos hk]
        have : ((slotStamps blob offset).1 != 0xffff
            && (slotStamps blob offset).2 != 0xffff) = true := by
          simp [bne_iff_ne, hk.1, hk.2]
        rw [this, if_pos rfl]
      · rw [if_neg hk]
        have : ((slotStamps blob offset).1 != 0xffff
            && (slotStamps blob offset).2 != 0xffff) = false := by
          rcases Decidable.not_and_iff_or_not.mp hk with h1 | h1 <;>
            simp [bne_iff_ne] at h1 ⊢ <;> simp [h1]
        rw [this, if_neg (by simp)]
    · rw [walkRecords, walkSlots, if_neg h, if_neg h, List.filter_nil]

/-- Format-revision probe, as in `VantagePro._use_rev_b_archive`: if the
cached flag already holds a boolean it is returned unchanged; otherwise
the slot is decoded under the revision-B layout, whose `RecType`
discriminator byte sits 42 bytes into the record, and the flag is set to
(`RecType == 0`), i.e. true means revision B.  Returns the decision and
the updated flag. -/
def useRevB (flag : Option Bool) (records : List Nat) (offset : Nat) :
    Bool × Option Bool :=
  match flag with
  | some b => (b, some b)
  | none =>
    let b := records.getD (offset + 42) 0 == 0
    (b, some b)

/-- Layout decisions across a session: each archive record probed in turn
(as `(page blob, offset)` pairs) is decoded under the layout
`_use_rev_b_archive` picks, threading the cached flag. -/
def decodeSession (flag : Option Bool) :
    List (List Nat × Nat) → List Bool × Option Bool
  | [] => ([], flag)
  | p :: rest =>
    let s := useRevB flag p.1 p.2
    let r := decodeSession s.2 rest
    (s.1 :: r.1, r.2)

/-- A session whose flag is already set decodes every record under that
layout and never changes the flag. -/
theorem decodeSession_some (b : Bool) (ps : List (List Nat × Nat)) :
    decodeSession (some b) ps = (List.replicate ps.length b, some b) := by
  induction ps with
  | nil => rfl
  | cons p rest ih => simp [decodeSession, useRevB, ih, List.replicate]

/-- Claim C8: starting from an unset flag, the first probed record's
`RecType` byte (0 means revision B) fixes the flag, and every later
record in the session is decoded under that same layout regardless of
its own discriminator byte. -/
theorem useRevB_sticky (blob : List Nat) (off : Nat)
    (rest : List (List Nat × Nat)) :
    decodeSession none ((blob, off) :: rest)
      = (List.replicate (rest.length + 1) (blob.getD (off + 42) 0 == 0),
         some (blob.getD (off + 42) 0 == 0)) := by
  simp [decodeSession, useRevB, decodeSession_some, List.replicate]

/-- Outcome of one transport read with a timeout: either the read timed
out, or it delivered a reply. -/
inductive ReadOutcome where
  | timeout : ReadOutcome
  | reply (b : List Nat) : ReadOutcome
deriving DecidableEq

/-- Wake acknowledgement bytes (`WAKE_ACK = '\n\r'`). -/
def WAKE_ACK : List Nat := [0x0a, 0x0d]

/-- Short acknowledgement byte (`ACK = '\x06'`). -/
def ACK : List Nat := [0x06]

/-- Literal confirmation reply (`OK = '\n\rOK\n\r'`). -/
def OK : List Nat := [0x0a, 0x0d, 0x4f, 0x4b, 0x0a, 0x0d]

/-- Result of running the `_wakeup` loop against a transport behavior. -/
inductive WakeRes where
  /-- The loop exited with `awake = True` after the given number of
  reads. -/
  | awake (reads : Nat) : WakeRes
  /-- The loop condition failed with `awake = False`, so the assertion
  raises `NoDeviceException`, after the given number of reads. -/
  | noDevice (reads : Nat) : WakeRes
  /-- The supplied fuel ran out while the loop was still iterating. -/
  | spinning : WakeRes
deriving DecidableEq

/-- The `while not awake and i < 3` loop of `VantagePro._wakeup`, run
against a transport behavior `outs` giving the outcome of each
successive read.  `i` counts timeouts only — exactly as in the source,
where `i += 1` sits in the `except TimeoutError` handler — and `r`
counts reads performed.  The fuel parameter only caps how many
iterations we unfold; `.spinning` reports that the loop was still
running when it ran out. -/
def wakeLoop (outs : Nat → ReadOutcome) : Nat → Nat → Nat → WakeRes
  | 0, _, _ => .spinning
  | fuel + 1, i, r =>
    if i < 3 then
      match outs r with
      | .timeout => wakeLoop outs fuel (i + 1) (r + 1)
      | .reply b => if b = WAKE_ACK then .awake (r + 1)
                    else wakeLoop outs fuel i (r + 1)
    else .noDevice r

/-- Entry point of `_wakeup`: loop from `awake, i = False, 0`. -/
def wakeup (outs : Nat → ReadOutcome) (fuel : Nat) : WakeRes :=
  wakeLoop outs fuel 0 0

/-- Claim C3, evaluated at the failing behavior: a transport whose reads
always deliver a non-matching reply (never the wake acknowledgement,
never a timeout) keeps the `_wakeup` loop running forever — however far
the loop is unfolded it is still iterating, because the retry counter is
incremented only on a timeout.  The claim's promise that `_wakeup`
always terminates and raises after the third attempt fails here. -/
theorem wakeup_spins_on_bad_replies (fuel : Nat) :
    wakeup (fun _ => ReadOutcome.reply [0, 0]) fuel = WakeRes.spinning := by
  show wakeLoop (fun _ => ReadOutcome.reply [0, 0]) fuel 0 0 = WakeRes.spinning
  suffices h : ∀ f r, wakeLoop (fun _ => ReadOutcome.reply [0, 0]) f 0 r
      = WakeRes.spinning from h fuel 0
  intro f
  induction f with
  | zero => intro r; rfl
  | succ n ih =>
    intro r
    show (if 0 < 3 then
        if ([0, 0] : List Nat) = WAKE_ACK then WakeRes.awake (r + 1)
        else wakeLoop (fun _ => ReadOutcome.reply [0, 0]) n 0 (r + 1)
      else WakeRes.noDevice r) = WakeRes.spinning
    rw [if_pos (by norm_num), if_neg (by decide)]
    exact ih (r + 1)

/-- Behavior of `_wakeup` on the timeout path, matching the source: three
straight timeouts exhaust the counter and the assertion raises
`NoDeviceException`; a read that returns the wake acknowledgement
succeeds at once. -/
theorem wakeup_timeouts_raise (outs : Nat → ReadOutcome) (fuel : Nat)
    (h0 : outs 0 = .timeout) (h1 : outs 1 = .timeout)
    (h2 : outs 2 = .timeout) (hf : 4 ≤ fuel) :
    wakeup outs fuel = WakeRes.noDevice 3 := by
  obtain ⟨f, rfl⟩ : ∃ f, fuel = f + 4 := ⟨fuel - 4, by omega⟩
  show wakeLoop outs (f + 4) 0 0 = WakeRes.noDevice 3
  rw [wakeLoop, if_pos (by norm_num), h0,
    wakeLoop, if_pos (by norm_num), h1,
    wakeLoop, if_pos (by norm_num), h2,
    wakeLoop, if_neg (by norm_num)]

/-- Witness for the timeout-path theorem at a concrete all-timeout
behavior. -/
theorem wakeup_timeouts_raise_witness :
    wakeup (fun _ => ReadOutcome.timeout) 4 = WakeRes.noDevice 3 :=
  wakeup_timeouts_raise (fun _ => ReadOutcome.timeout) 4 rfl rfl rfl
    (by decide)

/-- Result of the `_cmd` send+confirm handshake.  `done` stands for the
Python function returning `None`, which happens both when a reply
matches the expected acknowledgement and when all three attempts see
non-matching replies — the two cases are indistinguishable to the
caller.  `noDevice` stands for raising `NoDeviceException('Lost
connection')`. -/
inductive CmdRes where
  | noDevice : CmdRes
  | done : CmdRes
deriving DecidableEq

/-- The `for i in range(3)` loop of `VantagePro._cmd`, run against a
transport behavior `outs` giving the outcome of the acknowledgement read
of each attempt (attempt `i` writes the command then reads).  A timeout
raises at once; a matching reply returns; a non-matching reply falls
through to the next attempt; after the third non-matching reply the loop
ends and the function returns with no signal.  The second component
counts the attempts performed. -/
def cmdLoop (expected : List Nat) (outs : Nat → ReadOutcome) :
    Nat → Nat → CmdRes × Nat
  | 0, i => (.done, i)
  | n + 1, i =>
    match outs i with
    | .timeout => (.noDevice, i + 1)
    | .reply b =>
      if b = expected then (.done, i + 1)
      else cmdLoop expected outs n (i + 1)

/-- Entry point of `_cmd`'s confirm loop: three attempts. -/
def cmdRun (expected : List Nat) (outs : Nat → ReadOutcome) : CmdRes × Nat :=
  cmdLoop expected outs 3 0

/-- The confirm loop never performs more attempts than its fuel allows. -/
theorem cmdLoop_reads_le (expected : List Nat) (outs : Nat → ReadOutcome) :
    ∀ n i, (cmdLoop expected outs n i).2 ≤ i + n := by
  intro n
  induction n with
  | zero => intro i; simp [cmdLoop]
  | succ m ih =>
    intro i
    show (match outs i with
      | .timeout => ((.noDevice : CmdRes), i + 1)
      | .reply b =>
        if b = expected then ((.done : CmdRes), i + 1)
        else cmdLoop expected outs m (i + 1)).2 ≤ i + (m + 1)
    cases outs i with
    | timeout => simp
    | reply b =>
      by_cases hb : b = expected
      · simp [hb]
      · simp [hb]
        calc (cmdLoop expected outs m (i + 1)).2 ≤ (i + 1) + m := ih (i + 1)
          _ = i + (m + 1) := by omega

/-- If every attempt in a window sees a non-matching reply, the confirm
loop falls through it and returns with no signal. -/
theorem cmdLoop_all_mismatch (expected : List Nat) (outs : Nat → ReadOutcome) :
    ∀ n i, (∀ k, i ≤ k → k < i + n → ∃ b, outs k = .reply b ∧ b ≠ expected) →
      cmdLoop expected outs n i = (.done, i + n) := by
  intro n
  induction n with
  | zero => intro i _; simp [cmdLoop]
  | succ m ih =>
    intro i h
    obtain ⟨b, hb, hne⟩ := h i (le_refl i) (by omega)
    show (match outs i with
      | .timeout => ((.noDevice : CmdRes), i + 1)
      | .reply b =>
        if b = expected then ((.done : CmdRes), i + 1)
        else cmdLoop expected outs m (i + 1)) = (.done, i + (m + 1))
    rw [hb]
    simp only [if_neg hne]
    rw [ih (i + 1) (fun k hk1 hk2 => h k (by omega) (by omega))]
    congr 1
    omega

/-- If some attempt times out after a run of non-matching replies, the
confirm loop raises `NoDeviceException` at that attempt, performing no
further retries. -/
theorem cmdLoop_timeout_raises (expected : List Nat) (outs : Nat → ReadOutcome) :
    ∀ j n i, j < n →
      (∀ k, i ≤ k → k < i + j → ∃ b, outs k = .reply b ∧ b ≠ expected) →
      outs (i + j) = .timeout →
      cmdLoop expected outs n i = (.noDevice, i + j + 1) := by
  intro j
  induction j with
  | zero =>
    intro n i hn _ ht
    obtain ⟨m, rfl⟩ : ∃ m, n = m + 1 := ⟨n - 1, by omega⟩
    show (match outs i with
      | .timeout => ((.noDevice : CmdRes), i + 1)
      | .reply b =>
        if b = expected then ((.done : CmdRes), i + 1)
        else cmdLoop expected outs m (i + 1)) = (.noDevice, i + 0 + 1)
    rw [show i + 0 = i from rfl] at ht
    rw [ht]
  | succ p ih =>
    intro n i hn h ht
    obtain ⟨m, rfl⟩ : ∃ m, n = m + 1 := ⟨n - 1, by omega⟩
    obtain ⟨b, hb, hne⟩ := h i (le_refl i) (by omega)
    show (match outs i with
      | .timeout => ((.noDevice : CmdRes), i + 1)
      | .reply b =>
        if b = expected then ((.done : CmdRes), i + 1)
        else cmdLoop expected outs m (i + 1)) = (.noDevice, i + (p + 1) + 1)
    rw [hb]
    simp only [if_neg hne]
    rw [ih m (i + 1) (by omega)
      (fun k hk1 hk2 => h k (by omega) (by omega))
      (by rw [show i + 1 + p = i + (p + 1) from by omega]; exact ht)]
    congr 1
    omega

/-- Claim C4: in `_cmd`, a timeout on the acknowledgement read raises
device-unreachable immediately without further retries; a received but
non-matching reply causes the whole send+confirm to be retried, at most
3 times in total; and after 3 non-matching replies the call returns
normally, producing the same `None` result as a successful match. -/
theorem cmd_retry_spec (expected : List Nat) (outs : Nat → ReadOutcome) :
    (∀ i, i < 3 →
        (∀ k, k < i → ∃ b, outs k = .reply b ∧ b ≠ expected) →
        outs i = .timeout →
        cmdRun expected outs = (.noDevice, i + 1))
    ∧ ((∀ i, i < 3 → ∃ b, outs i = .reply b ∧ b ≠ expected) →
        cmdRun expected outs = (.done, 3))
    ∧ (cmdRun expected outs).2 ≤ 3 := by
  refine ⟨?_, ?_, ?_⟩
  · intro i hi hpre ht
    have := cmdLoop_timeout_raises expected outs i 3 0 hi
      (fun k hk1 hk2 => hpre k (by omega)) (by simpa using ht)
    simpa using this
  · intro h
    have := cmdLoop_all_mismatch expected outs 3 0
      (fun k hk1 hk2 => h k (by omega))
    simpa using this
  · simpa using cmdLoop_reads_le expected outs 3 0

/-- Witness for claim C4 at a transport that always replies with the
non-matching byte 0: the call returns normally after exactly 3
attempts. -/
theorem cmd_retry_spec_witness :
    (∀ i, i < 3 → ∃ b, (fun _ => ReadOutcome.reply [0]) i = ReadOutcome.reply b
        ∧ b ≠ ACK)
    ∧ cmdRun ACK (fun _ => ReadOutcome.reply [0]) = (.done, 3) :=
  ⟨fun _ _ => ⟨[0], rfl, by decide⟩,
   (cmd_retry_spec ACK (fun _ => ReadOutcome.reply [0])).2.1
     (fun _ _ => ⟨[0], rfl, by decide⟩)⟩

/-- Writes `_dmpaft_cmd` can perform on the transport: the watermark
buffer with its CRC, the acknowledgement byte `0x06`, or the escape
byte `0x1B`. -/
inductive Wr where
  | bytes (b : List Nat) : Wr
  | ack : Wr
  | esc : Wr
deriving DecidableEq

/-- Little-endian packing of the two 16-bit watermark fields, as
`struct.pack('2H', *time_fields)` produces. -/
def pack2H (tf : Nat × Nat) : List Nat :=
  [tf.1 % 256, tf.1 / 256 % 256, tf.2 % 256, tf.2 / 256 % 256]

/-- Big-endian packing of a 16-bit CRC, as `struct.pack('>H', crc)`
produces. -/
def packBE16 (v : Nat) : List Nat :=
  [v / 256 % 256, v % 256]

/-- Transport-side inputs consumed by one `_dmpaft_cmd` run: the single
acknowledgement byte read after the watermark buffer, the 6-byte
download-header frame, and the successive 267-byte page frames. -/
structure DmpInput where
  tsAck : List Nat
  headerRaw : List Nat
  pagesRaw : List (List Nat)

/-- The page loop of `_dmpaft_cmd` (steps 5-7): page `i`'s frame is read
and CRC-checked; on failure the escape byte is written and the whole
download returns no result; on success an acknowledgement is written and
the 260-byte record blob is walked, starting at `Offset * recordSize`
on page 0 and at 0 afterwards.  The fuel is the page count from the
header. -/
def dmpPages (inp : DmpInput) (dmpOffset : Nat) :
    Nat → Nat → List (Nat × Nat) → List Wr →
      Option (List (Nat × Nat)) × List Wr
  | 0, _, acc, tr => (some acc, tr)
  | n + 1, i, acc, tr =>
    let raw := inp.pagesRaw.getD i []
    if verify raw then
      let blob := (raw.drop 1).take 260
      let start := if i = 0 then dmpOffset * archiveRecordSize else 0
      dmpPages inp dmpOffset n (i + 1) (acc ++ walkRecords blob 5 start)
        (tr ++ [Wr.ack])
    else (none, tr ++ [Wr.esc])

/-- The archive download of `VantagePro._dmpaft_cmd`, after the DMPAFT
handshake: write the packed watermark plus big-endian CRC, read one
acknowledgement byte (mismatch returns no result), read and CRC-check
the download header (failure writes escape and returns no result;
success writes an acknowledgement), then run the page loop over the
`Pages` count with the record `Offset` both taken from the header.
Returns the collected records (or none) and the write trace. -/
def dmpaftCmd (tf : Nat × Nat) (inp : DmpInput) :
    Option (List (Nat × Nat)) × List Wr :=
  let tbuf := pack2H tf
  let crc := packBE16 (crcGet tbuf)
  let tr0 := [Wr.bytes (tbuf ++ crc)]
  if inp.tsAck = ACK then
    if verify inp.headerRaw then
      dmpPages inp (read16LE inp.headerRaw 2) (read16LE inp.headerRaw 0) 0 []
        (tr0 ++ [Wr.ack])
    else (none, tr0 ++ [Wr.esc])
  else (none, tr0)

/-- A CRC failure at any page of the page loop, with all earlier pages
valid, yields no result and writes the escape byte. -/
theorem dmpPages_crc_failure (inp : DmpInput) (dmpOffset : Nat) :
    ∀ j n i acc tr, j < n →
      verify (inp.pagesRaw.getD (i + j) []) = false →
      (∀ k, k < j → verify (inp.pagesRaw.getD (i + k) []) = true) →
      (dmpPages inp dmpOffset n i acc tr).1 = none
        ∧ Wr.esc ∈ (dmpPages inp dmpOffset n i acc tr).2 := by
  intro j
  induction j with
  | zero =>
    intro n i acc tr hn hbad _
    obtain ⟨m, rfl⟩ : ∃ m, n = m + 1 := ⟨n - 1, by omega⟩
    rw [show i + 0 = i from rfl] at hbad
    rw [dmpPages, if_neg (by rw [hbad]; exact Bool.false_ne_true)]
    exact ⟨rfl, by simp⟩
  | succ p ih =>
    intro n i acc tr hn hbad hgood
    obtain ⟨m, rfl⟩ : ∃ m, n = m + 1 := ⟨n - 1, by omega⟩
    have h0 : verify (inp.pagesRaw.getD (i + 0) []) = true := hgood 0 (by omega)
    rw [show i + 0 = i from rfl] at h0
    rw [dmpPages, if_pos h0]
    exact ih m (i + 1) _ _ (by omega)
      (by rw [show i + 1 + p = i + (p + 1) from by omega]; exact hbad)
      (fun k hk => by
        rw [show i + 1 + k = i + (k + 1) from by omega]
        exact hgood (k + 1) (by omega))

/-- Claim C6: whenever the download-header frame, or any page frame with
all earlier pages valid, fails CRC verification, `_dmpaft_cmd` writes the
escape byte 0x1B and the whole download attempt returns no result, so no
records from already-read pages are kept. -/
theorem dmpaft_crc_failure_aborts (tf : Nat × Nat) (inp : DmpInput)
    (hack : inp.tsAck = ACK)
    (hfail : verify inp.headerRaw = false
      ∨ (verify inp.headerRaw = true
          ∧ ∃ j, j < read16LE inp.headerRaw 0
            ∧ verify (inp.pagesRaw.getD j []) = false
            ∧ ∀ k, k < j → verify (inp.pagesRaw.getD k []) = true)) :
    (dmpaftCmd tf inp).1 = none ∧ Wr.esc ∈ (dmpaftCmd tf inp).2 := by
  unfold dmpaftCmd
  rw [if_pos hack]
  rcases hfail with hbad | ⟨hok, j, hj, hbad, hgood⟩
  · rw [if_neg (by rw [hbad]; exact Bool.false_ne_true)]
    exact ⟨rfl, by simp⟩
  · rw [if_pos hok]
    exact dmpPages_crc_failure inp (read16LE inp.headerRaw 2) j
      (read16LE inp.headerRaw 0) 0 [] _ hj
      (by rw [Nat.zero_add]; exact hbad)
      (fun k hk => by rw [Nat.zero_add]; exact hgood k hk)

/-- Witness for claim C6 at a concrete run whose 6-byte header frame has
an invalid CRC. -/
theorem dmpaft_crc_failure_aborts_witness :
    ((⟨ACK, [1, 2, 3, 4, 5, 6], []⟩ : DmpInput).tsAck = ACK
      ∧ verify (⟨ACK, [1, 2, 3, 4, 5, 6], []⟩ : DmpInput).headerRaw = false)
    ∧ (dmpaftCmd (0, 0) ⟨ACK, [1, 2, 3, 4, 5, 6], []⟩).1 = none
    ∧ Wr.esc ∈ (dmpaftCmd (0, 0) ⟨ACK, [1, 2, 3, 4, 5, 6], []⟩).2 :=
  ⟨⟨rfl, by decide⟩,
   dmpaft_crc_failure_aborts (0, 0) ⟨ACK, [1, 2, 3, 4, 5, 6], []⟩ rfl
     (Or.inl (by decide))⟩

/-- A decoded archive record as the session consumes it: its raw
`DateStamp` and `TimeStamp` fields plus an opaque payload standing for
the remaining decoded fields. -/
structure ArchRecord where
  dateStamp : Nat
  timeStamp : Nat
  payload : Nat
deriving DecidableEq

/-- The `(DateStamp, TimeStamp)` pair of a record, as
`_get_new_archive_fields` builds it. -/
def recTime (r : ArchRecord) : Nat × Nat :=
  (r.dateStamp, r.timeStamp)

/-- Strict lexicographic order on stamp pairs: exactly Python's `<` on
2-tuples, which `_get_new_archive_fields` uses on
`(DateStamp, TimeStamp)`. -/
def pairLt (a b : Nat × Nat) : Prop :=
  a.1 < b.1 ∨ (a.1 = b.1 ∧ a.2 < b.2)

instance pairLt.dec (a b : Nat × Nat) : Decidable (pairLt a b) :=
  inferInstanceAs (Decidable (_ ∨ _))

/-- Strict order on pairs is irreflexive. -/
theorem pairLt_irrefl (a : Nat × Nat) : ¬ pairLt a a := by
  unfold pairLt; omega

/-- Strict order on pairs is transitive. -/
theorem pairLt_trans {a b c : Nat × Nat}
    (h1 : pairLt a b) (h2 : pairLt b c) : pairLt a c := by
  unfold pairLt at *; omega

/-- Strict order on pairs is asymmetric. -/
theorem pairLt_asymm {a b : Nat × Nat} (h : pairLt a b) : ¬ pairLt b a := by
  unfold pairLt at *; omega


/-- One step of the newest-record fold in `_get_new_archive_fields`:
advance the watermark to the record's stamp pair when it strictly
exceeds the current one, remembering the record. -/
def newestStep (st : (Nat × Nat) × Option ArchRecord) (r : ArchRecord) :
    (Nat × Nat) × Option ArchRecord :=
  if pairLt st.1 (recTime r) then (recTime r, some r) else st

/-- Run the newest-record fold from an arbitrary intermediate state. -/
def newestFrom (st : (Nat × Nat) × Option ArchRecord)
    (records : List ArchRecord) : (Nat × Nat) × Option ArchRecord :=
  records.foldl newestStep st

/-- The newest-record fold of `_get_new_archive_fields`: walk the record
list from the current watermark with no record picked yet. -/
def findNewest (cursor : Nat × Nat) (records : List ArchRecord) :
    (Nat × Nat) × Option ArchRecord :=
  newestFrom (cursor, none) records

/-- The retry loop of `_get_new_archive_fields`: take the first download
attempt (of at most `k`) that returned a record list. -/
def trySeq : Nat → List (Option (List ArchRecord)) → Option (List ArchRecord)
  | 0, _ => none
  | _ + 1, [] => none
  | k + 1, a :: rest =>
    match a with
    | some rs => some rs
    | none => trySeq k rest

/-- Outcome of one `_get_new_archive_fields` call: either the
`NoNewRecordsException` was raised, or the call returned the given
optional record. -/
inductive PollOutcome where
  | noNewRecords : PollOutcome
  | result (r : Option ArchRecord) : PollOutcome
deriving DecidableEq

/-- `VantagePro._get_new_archive_fields`: run the download up to 3 times
until an attempt yields a record list; raise no-new-records if none
does; otherwise fold for the newest record, advancing the watermark.
Returns the final watermark together with the outcome. -/
def getNewArchiveFields (cursor : Nat × Nat)
    (attempts : List (Option (List ArchRecord))) :
    (Nat × Nat) × PollOutcome :=
  match trySeq 3 attempts with
  | none => (cursor, .noNewRecords)
  | some rs =>
    let s := findNewest cursor rs
    (s.1, .result s.2)

/-- The picked-record component of the fold only overrides the starting
accumulator; the watermark component ignores it. -/
theorem newestFrom_best (records : List ArchRecord)
    (c : Nat × Nat) (b : Option ArchRecord) :
    newestFrom (c, b) records
      = ((newestFrom (c, none) records).1,
         match (newestFrom (c, none) records).2 with
         | none => b
         | some x => some x) := by
  induction records generalizing c b with
  | nil => cases b <;> rfl
  | cons r rest ih =>
    show newestFrom (newestStep (c, b) r) rest
      = ((newestFrom (newestStep (c, none) r) rest).1,
         match (newestFrom (newestStep (c, none) r) rest).2 with
         | none => b
         | some x => some x)
    by_cases h : pairLt c (recTime r)
    · simp only [newestStep, if_pos h]
      rw [ih (recTime r) (some r)]
      rcases hy : (newestFrom (recTime r, none) rest).2 with _ | x <;> simp [hy]
    · simp only [newestStep, if_neg h]
      exact ih c b

/-- Characterization of the newest-record fold: either nothing exceeded
the cursor and the state is unchanged with no record selected, or the
selected record bears the maximal pair, which strictly exceeds the
cursor and is not exceeded by any record in the list. -/
theorem findNewest_spec (cursor : Nat × Nat) (records : List ArchRecord) :
    ((findNewest cursor records).1 = cursor
      ∧ (findNewest cursor records).2 = none
      ∧ ∀ r ∈ records, ¬ pairLt cursor (recTime r))
    ∨ (∃ r ∈ records, (findNewest cursor records).2 = some r
        ∧ recTime r = (findNewest cursor records).1
        ∧ pairLt cursor (findNewest cursor records).1
        ∧ ∀ r2 ∈ records,
            ¬ pairLt (findNewest cursor records).1 (recTime r2)) := by
  induction records generalizing cursor with
  | nil => exact Or.inl ⟨rfl, rfl, by simp⟩
  | cons r rest ih =>
    by_cases h : pairLt cursor (recTime r)
    · have hrw : findNewest cursor (r :: rest)
          = ((findNewest (recTime r) rest).1,
             match (findNewest (recTime r) rest).2 with
             | none => some r
             | some x => some x) := by
        show newestFrom (newestStep (cursor, none) r) rest
          = ((findNewest (recTime r) rest).1,
             match (findNewest (recTime r) rest).2 with
             | none => some r
             | some x => some x)
        simp only [newestStep, if_pos h]
        exact newestFrom_best rest (recTime r) (some r)
      rcases ih (recTime r) with ⟨h1, h2, h3⟩ | ⟨r2, hmem, h1, h2, h3, h4⟩
      · refine Or.inr ⟨r, List.mem_cons_self r rest, ?_, ?_, ?_, ?_⟩
        · rw [hrw, h2]
        · rw [hrw, h1]
        · rw [hrw, h1]; exact h
        · rw [hrw, h1]
          intro r2 hr2
          rcases List.mem_cons.mp hr2 with rfl | hr2
          · exact pairLt_irrefl (recTime r2)
          · exact h3 r2 hr2
      · refine Or.inr ⟨r2, List.mem_cons_of_mem r hmem, ?_, ?_, ?_, ?_⟩
        · rw [hrw, h1]
        · rw [hrw]; exact h2
        · rw [hrw]; exact pairLt_trans h h3
        · rw [hrw]
          intro r3 hr3
          rcases List.mem_cons.mp hr3 with rfl | hr3
          · exact pairLt_asymm h3
          · exact h4 r3 hr3
    · have hrw : findNewest cursor (r :: rest) = findNewest cursor rest := by
        show newestFrom (newestStep (cursor, none) r) rest
          = findNewest cursor rest
        simp only [newestStep, if_neg h]
        rfl
      rcases ih cursor with ⟨h1, h2, h3⟩ | ⟨r2, hmem, h1, h2, h3, h4⟩
      · refine Or.inl ⟨by rw [hrw, h1], by rw [hrw, h2], ?_⟩
        intro r2 hr2
        rcases List.mem_cons.mp hr2 with rfl | hr2
        · exact h
        · exact h3 r2 hr2
      · refine Or.inr ⟨r2, List.mem_cons_of_mem r hmem,
          by rw [hrw]; exact h1, by rw [hrw]; exact h2,
          by rw [hrw]; exact h3, ?_⟩
        rw [hrw]
        intro r3 hr3
        rcases List.mem_cons.mp hr3 with rfl | hr3
        · intro hc
          exact h (pairLt_trans h3 hc)
        · exact h4 r3 hr3

/-- Claim C2: after a `_get_new_archive_fields` call that obtains a
record list, the watermark is non-decreasing; it is unchanged (and no
record is returned) when no record strictly exceeds the prior cursor;
and when some record exceeds it, the call returns a record from the list
whose stamp pair equals the advanced watermark, strictly exceeds the
prior cursor, and is exceeded by no record in the list. -/
theorem pollArchive_watermark (cursor : Nat × Nat)
    (attempts : List (Option (List ArchRecord))) (rs : List ArchRecord)
    (h : trySeq 3 attempts = some rs) :
    (cursor = (getNewArchiveFields cursor attempts).1
      ∨ pairLt cursor (getNewArchiveFields cursor attempts).1)
    ∧ ((∀ r ∈ rs, ¬ pairLt cursor (recTime r)) →
        (getNewArchiveFields cursor attempts).1 = cursor
        ∧ (getNewArchiveFields cursor attempts).2 = .result none)
    ∧ (∀ r0 ∈ rs, pairLt cursor (recTime r0) →
        ∃ r ∈ rs, (getNewArchiveFields cursor attempts).2 = .result (some r)
          ∧ recTime r = (getNewArchiveFields cursor attempts).1
          ∧ pairLt cursor (recTime r)
          ∧ ∀ r2 ∈ rs, ¬ pairLt (recTime r) (recTime r2)) := by
  have hrw : getNewArchiveFields cursor attempts
      = ((findNewest cursor rs).1, .result (findNewest cursor rs).2) := by
    unfold getNewArchiveFields
    rw [h]
  rcases findNewest_spec cursor rs with ⟨h1, h2, h3⟩ | ⟨r, hmem, h1, h2, h3, h4⟩
  · refine ⟨Or.inl (by rw [hrw, h1]),
      fun _ => ⟨by rw [hrw]; exact h1, by rw [hrw, h2]⟩,
      fun r0 hr0 hx => absurd hx (h3 r0 hr0)⟩
  · refine ⟨Or.inr (by rw [hrw]; exact h3),
      fun hnone => absurd (by rw [h2]; exact h3) (hnone r hmem),
      fun r0 hr0 hx => ⟨r, hmem, by rw [hrw, h1], by rw [hrw]; exact h2,
        by rw [h2]; exact h3,
        fun r2 hr2 => by rw [h2]; exact h4 r2 hr2⟩⟩

/-- Witness for claim C2 at a concrete call: cursor (100, 0) and a single
returned record stamped (10, 5), which does not exceed the cursor, so
the watermark is unchanged and no record is returned. -/
theorem pollArchive_watermark_witness :
    trySeq 3 [some [⟨10, 5, 0⟩]] = some [⟨10, 5, 0⟩]
    ∧ (getNewArchiveFields (100, 0) [some [⟨10, 5, 0⟩]]).1 = (100, 0)
    ∧ (getNewArchiveFields (100, 0) [some [⟨10, 5, 0⟩]]).2
        = PollOutcome.result none :=
  ⟨rfl, (pollArchive_watermark (100, 0) [some [⟨10, 5, 0⟩]] [⟨10, 5, 0⟩]
    rfl).2.1 (by decide)⟩

/-- The retry loop sees only `none` when the first three attempt results
are all `none`. -/
theorem trySeq_three_none (attempts : List (Option (List ArchRecord)))
    (h : ∀ k, k < 3 → attempts.getD k none = none) :
    trySeq 3 attempts = none := by
  match attempts with
  | [] => rfl
  | a0 :: rest0 =>
    have h0 : a0 = none := by simpa using h 0 (by omega)
    subst h0
    show trySeq 2 rest0 = none
    match rest0 with
    | [] => rfl
    | a1 :: rest1 =>
      have h1 : a1 = none := by simpa using h 1 (by omega)
      subst h1
      show trySeq 1 rest1 = none
      match rest1 with
      | [] => rfl
      | a2 :: rest2 =>
        have h2 : a2 = none := by simpa using h 2 (by omega)
        subst h2
        show trySeq 0 rest2 = none
        rfl

/-- Claim C5: when all 3 outer download attempts return no result,
`_get_new_archive_fields` raises the distinct no-new-records failure and
the watermark cursor is exactly what it was before the call. -/
theorem pollArchive_all_fail (cursor : Nat × Nat)
    (attempts : List (Option (List ArchRecord)))
    (h : ∀ k, k < 3 → attempts.getD k none = none) :
    getNewArchiveFields cursor attempts = (cursor, .noNewRecords) := by
  unfold getNewArchiveFields
  rw [trySeq_three_none attempts h]

/-- Witness for claim C5 at three concrete failed attempts. -/
theorem pollArchive_all_fail_witness :
    (∀ k, k < 3 → ([none, none, none] :
        List (Option (List ArchRecord))).getD k none = none)
    ∧ getNewArchiveFields (7, 8) [none, none, none]
        = ((7, 8), PollOutcome.noNewRecords) :=
  ⟨by decide, pollArchive_all_fail (7, 8) [none, none, none] (by decide)⟩

end Davis
